import Mathlib

/-
  Verification of the KNI (Kernel-NIC-Interface) device core of PcapPlusPlus,
  a shallow embedding of src/Pcap++/src/KniDevice.cpp.

  External collaborators (the DPDK engine primitives rte_kni_rx_burst /
  rte_kni_tx_burst / rte_kni_update_link, the Linux ioctl layer reached through
  KniDeviceInfo.soc.makeRequest, and pthread creation) are modelled as explicit
  oracle parameters: each device operation receives the answers the collaborator
  would give for the calls the operation makes, in call order.  Machine integers
  that cannot overflow on the modelled paths (counts bounded by burst size,
  flags words) are modelled as Nat; wall-clock seconds in the blocking capture
  loop are modelled as Int, as in the source (long).
-/

namespace pcpp

/-- Link state of a KNI device.  The numeric mapping (LINK_DOWN = 0, LINK_UP = 1,
LINK_ERROR = -1, LINK_NOT_SUPPORTED = -2) is taken from the KniDevice header;
the cast KniLinkState(req.ifr_flags & IFF_UP) in getLinkState relies on it. -/
inductive KniLinkState where
  | LINK_NOT_SUPPORTED
  | LINK_ERROR
  | LINK_DOWN
  | LINK_UP
deriving DecidableEq

/-- Promiscuous mode of a KNI device. -/
inductive KniPromiscuousMode where
  | PROMISC_DISABLE
  | PROMISC_ENABLE
deriving DecidableEq

/-- Mode argument of the attribute getters: cached value or fresh kernel query. -/
inductive KniInfoState where
  | INFO_CACHED
  | INFO_RENEW
deriving DecidableEq

/-- Cleanup disposition of a KniThread (KniDevice::KniThread::KniThreadCleanupState). -/
inductive KniThreadCleanupState where
  | JOINABLE
  | DETACHED
  | INVALID
deriving DecidableEq

/-- A MAC address, abstracted: only identity and the validity predicate
(MacAddress::isValid) matter to KniDevice.cpp. -/
structure MacAddress where
  addr : Nat
  valid : Bool
deriving DecidableEq

/-- The mutable attribute cache m_DeviceInfo (KniDevice::KniDeviceInfo).
The interface name is omitted: it is set at construction, never mutated, and
used only for logging and as the ioctl target. -/
structure KniDeviceInfo where
  link : KniLinkState
  promisc : KniPromiscuousMode
  portId : Nat
  mtu : Nat
  mac : MacAddress
deriving DecidableEq

/-- KniDeviceInfo::init: cache state right after construction. -/
def KniDeviceInfo.init (portId mtu : Nat) (mac : MacAddress) : KniDeviceInfo :=
  { link := KniLinkState.LINK_NOT_SUPPORTED
  , promisc := KniPromiscuousMode.PROMISC_DISABLE
  , portId := portId
  , mtu := mtu
  , mac := mac }

/-- The device state visible to the operations of KniDevice.cpp.
device models m_Device != NULL (the engine handle); capturingThread and
requestsThread model the worker pointers m_Capturing.thread and
m_Requests.thread (none = NULL); capturingDangling records that the pointed-to
KniThread object has been deleted while the pointer was left non-null. -/
structure KniDeviceState where
  device : Bool
  deviceOpened : Bool
  info : KniDeviceInfo
  capturingThread : Option KniThreadCleanupState
  capturingDangling : Bool
  capturingHasCallback : Bool
  requestsThread : Option KniThreadCleanupState
  reqSleepS : Nat
  reqSleepNs : Nat
deriving DecidableEq

/-- KniDevice::KniDevice, with the outcomes of the two fallible allocations
(rte_pktmbuf_pool_create and rte_kni_alloc) as oracle inputs.  If the mempool
allocation fails the constructor returns before rte_kni_alloc, so the handle is
non-null only when both succeed.  Modelled from the spec: the initial value
m_DeviceOpened = false comes from the device base class, whose source is not
part of this repository slice (spec lifecycle: constructed, then optionally
opened). -/
def mkKniDevice (portId mtu : Nat) (mac : MacAddress) (mempoolOk kniAllocOk : Bool) :
    KniDeviceState :=
  { device := mempoolOk && kniAllocOk
  , deviceOpened := false
  , info := KniDeviceInfo.init portId mtu mac
  , capturingThread := none
  , capturingDangling := false
  , capturingHasCallback := false
  , requestsThread := none
  , reqSleepS := 0
  , reqSleepNs := 0 }

/-- m_Capturing.isRunning(): the capture worker pointer is non-null.
Modelled from the spec: the one-line isRunning accessor lives in the KniDevice
header, which is not part of this repository slice; the spec describes it as
an isRunning() check on the capture state. -/
def KniDeviceState.isCapturing (dev : KniDeviceState) : Bool :=
  dev.capturingThread.isSome

/-
  =======================
  Burst transmit (send)
  =======================
-/

/-- MAX_BURST_SIZE from KniDevice.cpp. -/
def MAX_BURST_SIZE : Nat := 64

/-- rte_kni_tx_burst: the engine enqueues some prefix of the n offered mbufs.
The oracle txEnv is how many the engine would take; the DPDK contract caps the
return at the offered count. -/
def txBurst (txEnv n : Nat) : Nat := min txEnv n

/-- A caller-side slot of the RawPacketVector send variant: isMbuf is whether
getObjectType() == MBUFRAWPACKET_OBJECT_TYPE, freeMbuf is the free-on-drop
disposition (setFreeMbuf flag) of the mbuf-carrying slot. -/
structure TxSlot where
  isMbuf : Bool
  freeMbuf : Bool
deriving DecidableEq

/-- The marking loop of sendPackets(MBufRawPacket**, uint16_t):
rawPacketsArr[i]->setFreeMbuf(i >= packetsSent) for every i, counting from i. -/
def markAllFrom (sent : Nat) : Nat → List Bool → List Bool
  | _, [] => []
  | i, _ :: rest => decide (sent ≤ i) :: markAllFrom sent (i + 1) rest

/-- The marking loop of sendPackets(RawPacketVector&): the converted temporaries
absorb the flag for foreign packets and are deleted, so only mbuf-typed caller
slots observably change. -/
def markSlotsFrom (sent : Nat) : Nat → List TxSlot → List TxSlot
  | _, [] => []
  | i, s :: rest =>
      (if s.isMbuf then { s with freeMbuf := decide (sent ≤ i) } else s)
        :: markSlotsFrom sent (i + 1) rest

/-- Whether the preparation loop of sendPackets(RawPacketVector&) hits a failing
initFromRawPacket conversion: slot at position i is foreign and conv i fails. -/
def convFails : Nat → (Nat → Bool) → List TxSlot → Bool
  | _, _, [] => false
  | i, conv, s :: rest => (!s.isMbuf && !conv i) || convFails (i + 1) conv rest

/-- KniDevice::sendPackets(MBufRawPacket** rawPacketsArr, uint16_t arrLength).
The slots are represented by their freeMbuf flags (all entries are engine-native
by type).  Returns (packetsSent, flags after the marking loop). -/
def sendPacketsMBufArr (opened : Bool) (slots : List Bool) (txEnv : Nat) :
    Nat × List Bool :=
  if opened = false then (0, slots)
  else
    let sent := txBurst txEnv slots.length
    (sent, markAllFrom sent 0 slots)

/-- KniDevice::sendPackets(RawPacketVector& rawPacketsVec).  conv is the oracle
for initFromRawPacket on each vector position; a failing conversion jumps to
error_out, which frees the temporaries and returns packetsSent = 0 without
running the marking loop, so the caller slots keep their old dispositions. -/
def sendPacketsRawVec (opened : Bool) (slots : List TxSlot) (conv : Nat → Bool)
    (txEnv : Nat) : Nat × List TxSlot :=
  if opened = false then (0, slots)
  else if convFails 0 conv slots then (0, slots)
  else
    let sent := txBurst txEnv slots.length
    (sent, markSlotsFrom sent 0 slots)

/-- The handoff prefix rule on a list of flags starting at index i: flag at
absolute index j is true (caller-owned / free-on-drop) iff sent ≤ j. -/
def handoffRuleAllFrom (sent : Nat) : Nat → List Bool → Bool
  | _, [] => true
  | i, b :: rest => (b == decide (sent ≤ i)) && handoffRuleAllFrom sent (i + 1) rest

/-- The handoff prefix rule on caller slots of the RawPacketVector variant:
checked on the slots that carry an mbuf disposition. -/
def handoffRuleFrom (sent : Nat) : Nat → List TxSlot → Bool
  | _, [] => true
  | i, s :: rest =>
      (!s.isMbuf || (s.freeMbuf == decide (sent ≤ i))) && handoffRuleFrom sent (i + 1) rest

theorem markAllFrom_sound (sent : Nat) :
    ∀ (l : List Bool) (i : Nat), handoffRuleAllFrom sent i (markAllFrom sent i l) = true := by
  intro l
  induction l with
  | nil => intro i; rfl
  | cons b rest ih => intro i; simp [markAllFrom, handoffRuleAllFrom, ih]

theorem markSlotsFrom_sound (sent : Nat) :
    ∀ (l : List TxSlot) (i : Nat), handoffRuleFrom sent i (markSlotsFrom sent i l) = true := by
  intro l
  induction l with
  | nil => intro i; rfl
  | cons s rest ih =>
      intro i
      cases hs : s.isMbuf <;> simp [markSlotsFrom, handoffRuleFrom, hs, ih]

/-- Concrete send inputs used below: a vector whose second entry is a foreign
packet with a failing conversion, first entry an engine-native slot currently
marked engine-owned. -/
def slotsFailW : List TxSlot := [⟨true, false⟩, ⟨false, false⟩]

/-- Conversion oracle failing from vector position 1 on. -/
def convFailW : Nat → Bool := fun i => i == 0

/-- All-native vector and an always-succeeding conversion oracle. -/
def slotsOkW : List TxSlot := [⟨true, true⟩, ⟨false, false⟩, ⟨true, false⟩]

/-- Conversion oracle that always succeeds. -/
def convOkW : Nat → Bool := fun _ => true

/-- Claim C1, counterexample: sendPackets(RawPacketVector&) on an opened device,
with a vector whose entry 1 is a foreign packet failing conversion, returns
sent = 0, yet slot 0 (in [sent, n)) is left engine-owned (freeMbuf = false)
instead of being marked caller-owned: the prefix rule does not hold for this
call, refuting the claim as stated. -/
theorem kni_send_handoff_counterexample :
    (sendPacketsRawVec true slotsFailW convFailW 2).1 = 0
    ∧ handoffRuleFrom (sendPacketsRawVec true slotsFailW convFailW 2).1 0
        (sendPacketsRawVec true slotsFailW convFailW 2).2 = false := by
  decide

/-- Claim C1, amended: for sendPackets on an opened device, whenever packet
preparation succeeds (always the case for the engine-native array variant, and
for the RawPacketVector variant when every foreign packet converts), the slot at
each index i in [0, n) has its free-on-drop disposition set by the prefix rule:
[0, sent) engine-owned, [sent, n) caller-owned, no index marked both; when a
conversion fails, the call returns 0 and leaves every caller disposition
unchanged. -/
theorem kni_send_handoff_amended (arr : List Bool) (slots : List TxSlot)
    (conv : Nat → Bool) (txEnv : Nat) :
    handoffRuleAllFrom (sendPacketsMBufArr true arr txEnv).1 0
        (sendPacketsMBufArr true arr txEnv).2 = true
    ∧ (convFails 0 conv slots = false →
        handoffRuleFrom (sendPacketsRawVec true slots conv txEnv).1 0
          (sendPacketsRawVec true slots conv txEnv).2 = true)
    ∧ (convFails 0 conv slots = true →
        sendPacketsRawVec true slots conv txEnv = (0, slots)) := by
  refine ⟨?_, ?_, ?_⟩
  · simp [sendPacketsMBufArr, markAllFrom_sound]
  · intro h
    simp [sendPacketsRawVec, h, markSlotsFrom_sound]
  · intro h
    simp [sendPacketsRawVec, h]

/-- Claim C1, witness for the amended theorem at concrete inputs. -/
theorem kni_send_handoff_amended_witness :
    handoffRuleFrom (sendPacketsRawVec true slotsOkW convOkW 2).1 0
        (sendPacketsRawVec true slotsOkW convOkW 2).2 = true
    ∧ sendPacketsRawVec true slotsFailW convFailW 2 = (0, slotsFailW) :=
  ⟨(kni_send_handoff_amended [] slotsOkW convOkW 2).2.1 (by decide),
   (kni_send_handoff_amended [] slotsFailW convFailW 2).2.2 (by decide)⟩

/-
  =======================
  Burst receive
  =======================
-/

/-- The stamping loop of the receive paths: every mbuf of the burst is bound to
a slot via setMBuf(mBuf, time) with the single time value sampled before the
loop. -/
def stampPackets : List Nat → Nat → List (Nat × Nat)
  | [], _ => []
  | m :: rest, t => (m, t) :: stampPackets rest t

/-- Observable outcome of one receivePackets call.  count is the returned
value; packets the (mbuf, timestamp) pairs handed to slots; ringAfter what is
left on the engine RX ring; sampleIdx the gettimeofday sample counter after the
call; loggedError whether an error was logged. -/
structure RxResult where
  count : Nat
  packets : List (Nat × Nat)
  ringAfter : List Nat
  sampleIdx : Nat
  loggedError : Bool
deriving DecidableEq

/-- KniDevice::receivePackets(MBufRawPacketVector&).  ring is the engine RX
ring content; clock the wall clock indexed by the gettimeofday sample counter
idx.  rte_kni_rx_burst is called with capacity MAX_BURST_SIZE onto a local
64-entry array. -/
def receivePacketsVec (dev : KniDeviceState) (ring : List Nat) (clock : Nat → Nat)
    (idx : Nat) : RxResult :=
  if dev.deviceOpened = false then ⟨0, [], ring, idx, true⟩
  else if dev.isCapturing then ⟨0, [], ring, idx, true⟩
  else
    let burst := ring.take MAX_BURST_SIZE
    if burst.length = 0 then ⟨0, [], ring.drop MAX_BURST_SIZE, idx, false⟩
    else ⟨burst.length, stampPackets burst (clock idx), ring.drop MAX_BURST_SIZE,
          idx + 1, false⟩

/-- KniDevice::receivePackets(MBufRawPacket** rawPacketsArr, uint16_t
rawPacketArrLength).  The output array is a VLA of rawPacketArrLength entries,
but rte_kni_rx_burst is called with capacity MAX_BURST_SIZE, not
min(rawPacketArrLength, MAX_BURST_SIZE): the burst taken does not depend on
rawPacketArrLength. -/
def receivePacketsArr (dev : KniDeviceState) (rawPacketArrLength : Nat)
    (arrNull : Bool) (ring : List Nat) (clock : Nat → Nat) (idx : Nat) : RxResult :=
  if dev.deviceOpened = false then ⟨0, [], ring, idx, true⟩
  else if dev.isCapturing then ⟨0, [], ring, idx, true⟩
  else if arrNull then ⟨0, [], ring, idx, true⟩
  else
    let burst := ring.take MAX_BURST_SIZE
    if burst.length = 0 then ⟨0, [], ring.drop MAX_BURST_SIZE, idx, false⟩
    else ⟨burst.length, stampPackets burst (clock idx), ring.drop MAX_BURST_SIZE,
          idx + 1, false⟩

/-- KniDevice::receivePackets(Packet** packetsArr, uint16_t packetsArrLength):
same shape as the MBufRawPacket** variant without the null-array check, and
with the same fixed MAX_BURST_SIZE capacity passed to rte_kni_rx_burst. -/
def receivePacketsPkt (dev : KniDeviceState) (packetsArrLength : Nat)
    (ring : List Nat) (clock : Nat → Nat) (idx : Nat) : RxResult :=
  if dev.deviceOpened = false then ⟨0, [], ring, idx, true⟩
  else if dev.isCapturing then ⟨0, [], ring, idx, true⟩
  else
    let burst := ring.take MAX_BURST_SIZE
    if burst.length = 0 then ⟨0, [], ring.drop MAX_BURST_SIZE, idx, false⟩
    else ⟨burst.length, stampPackets burst (clock idx), ring.drop MAX_BURST_SIZE,
          idx + 1, false⟩

/-- One iteration of KniDevice::KniCapturing::runCapture: burst up to 64, on an
empty burst observe cancellation and loop; otherwise sample the clock once
(before the callback-null check), stamp each mbuf with that sample, and
dispatch; keepRunning is false exactly when the callback returned false. -/
structure CaptureIterResult where
  delivered : Nat
  packets : List (Nat × Nat)
  ringAfter : List Nat
  sampleIdx : Nat
  keepRunning : Bool
deriving DecidableEq

/-- One capture-loop iteration (KniCapturing::runCapture body). -/
def runCaptureIteration (ring : List Nat) (clock : Nat → Nat) (idx : Nat)
    (hasCb cbAnswer : Bool) : CaptureIterResult :=
  let burst := ring.take MAX_BURST_SIZE
  if burst.length = 0 then ⟨0, [], ring.drop MAX_BURST_SIZE, idx, true⟩
  else if hasCb then
    ⟨burst.length, stampPackets burst (clock idx), ring.drop MAX_BURST_SIZE,
     idx + 1, cbAnswer⟩
  else ⟨burst.length, [], ring.drop MAX_BURST_SIZE, idx + 1, true⟩

theorem stampPackets_map_snd (l : List Nat) (t : Nat) :
    (stampPackets l t).map Prod.snd = List.replicate (stampPackets l t).length t := by
  induction l with
  | nil => rfl
  | cons m rest ih => simp [stampPackets, List.replicate_succ, ih]

/-- A device with a valid handle, opened, no workers running: the baseline for
concrete evaluations. -/
def devReady : KniDeviceState :=
  { mkKniDevice 0 1500 ⟨1, true⟩ true true with deviceOpened := true }

/-- devReady with a live capture worker. -/
def capDev : KniDeviceState :=
  { devReady with capturingThread := some KniThreadCleanupState.JOINABLE }

/-- Claim C2: receivePackets with a caller-provided output array passes
MAX_BURST_SIZE to rte_kni_rx_burst regardless of the array length, so with 32
packets on the ring and a 16-entry array it returns 32 and writes 32 slots,
exceeding min(capacity, 64) = 16: the code contradicts the specified burst
request of min(capacity, MAX_BURST). -/
theorem kni_receive_overruns_capacity :
    (receivePacketsArr devReady 16 false (List.range 32) (fun _ => 0) 0).count = 32
    ∧ (receivePacketsPkt devReady 16 (List.range 32) (fun _ => 0) 0).count = 32
    ∧ ¬(32 ≤ min 16 MAX_BURST_SIZE) := by
  decide

/-- Claim C6: while a capture worker exists, each of the three receivePackets
variants returns 0, logs an error, and leaves the engine RX ring untouched. -/
theorem kni_receive_blocked_while_capturing (dev : KniDeviceState) (len : Nat)
    (arrNull : Bool) (ring : List Nat) (clock : Nat → Nat) (idx : Nat)
    (h : dev.capturingThread.isSome = true) :
    receivePacketsVec dev ring clock idx = ⟨0, [], ring, idx, true⟩
    ∧ receivePacketsArr dev len arrNull ring clock idx = ⟨0, [], ring, idx, true⟩
    ∧ receivePacketsPkt dev len ring clock idx = ⟨0, [], ring, idx, true⟩ := by
  cases hop : dev.deviceOpened <;>
    simp [receivePacketsVec, receivePacketsArr, receivePacketsPkt,
      KniDeviceState.isCapturing, hop, h]

/-- Claim C6, witness: a concrete capturing device with packets on the ring. -/
theorem kni_receive_blocked_while_capturing_witness :
    receivePacketsVec capDev [1, 2, 3] (fun _ => 0) 0 = ⟨0, [], [1, 2, 3], 0, true⟩
    ∧ receivePacketsArr capDev 4 false [1, 2, 3] (fun _ => 0) 0 = ⟨0, [], [1, 2, 3], 0, true⟩
    ∧ receivePacketsPkt capDev 4 [1, 2, 3] (fun _ => 0) 0 = ⟨0, [], [1, 2, 3], 0, true⟩ :=
  kni_receive_blocked_while_capturing capDev 4 false [1, 2, 3] (fun _ => 0) 0 (by decide)

/-- Claim C7: within one receivePackets call and within one capture-loop
iteration, the clock is sampled exactly once per non-empty burst (the sample
counter advances by one iff packets were produced) and every produced packet
carries that single sampled timestamp. -/
theorem kni_burst_timestamp_coherence (dev : KniDeviceState) (ring : List Nat)
    (clock : Nat → Nat) (idx : Nat) (hasCb cbAnswer : Bool) :
    ((receivePacketsVec dev ring clock idx).packets.map Prod.snd
        = List.replicate (receivePacketsVec dev ring clock idx).packets.length (clock idx))
    ∧ ((receivePacketsVec dev ring clock idx).sampleIdx
        = if (receivePacketsVec dev ring clock idx).count = 0 then idx else idx + 1)
    ∧ ((runCaptureIteration ring clock idx hasCb cbAnswer).packets.map Prod.snd
        = List.replicate (runCaptureIteration ring clock idx hasCb cbAnswer).packets.length
            (clock idx))
    ∧ ((runCaptureIteration ring clock idx hasCb cbAnswer).sampleIdx
        = if (runCaptureIteration ring clock idx hasCb cbAnswer).delivered = 0 then idx
          else idx + 1) := by
  refine ⟨?_, ?_, ?_, ?_⟩ <;>
    · cases hop : dev.deviceOpened <;>
        cases hcap : dev.isCapturing <;>
          cases hcb : hasCb <;>
            cases ring with
            | nil => simp [receivePacketsVec, runCaptureIteration, hop, hcap, hcb]
            | cons m rest =>
                simp [receivePacketsVec, runCaptureIteration, hop, hcap, hcb,
                  MAX_BURST_SIZE, Nat.min_eq_zero_iff, stampPackets_map_snd]

/-
  ==========================================
  Attribute cache and kernel interface bridge
  ==========================================
-/

/-- The IFF_UP bit of the Linux interface flags word. -/
def IFF_UP : Nat := 1

/-- The IFF_PROMISC bit of the Linux interface flags word. -/
def IFF_PROMISC : Nat := 256

/-- The cast KniLinkState(req.ifr_flags & IFF_UP) of getLinkState: 0 maps to
LINK_DOWN, 1 to LINK_UP. -/
def linkFromFlags (flags : Nat) : KniLinkState :=
  if flags &&& IFF_UP = 0 then KniLinkState.LINK_DOWN else KniLinkState.LINK_UP

/-- KniDevice::getLinkState.  resp is the SIOCGIFFLAGS oracle: none models a
failing makeRequest, some flags a successful read of the flags word. -/
def getLinkState (info : KniDeviceInfo) (state : KniInfoState) (resp : Option Nat) :
    KniLinkState × KniDeviceInfo :=
  match state with
  | KniInfoState.INFO_CACHED => (info.link, info)
  | KniInfoState.INFO_RENEW =>
    match resp with
    | none => (info.link, info)
    | some flags => (linkFromFlags flags, { info with link := linkFromFlags flags })

/-- KniDevice::getMacAddress with the SIOCGIFHWADDR oracle. -/
def getMacAddress (info : KniDeviceInfo) (state : KniInfoState)
    (resp : Option MacAddress) : MacAddress × KniDeviceInfo :=
  match state with
  | KniInfoState.INFO_CACHED => (info.mac, info)
  | KniInfoState.INFO_RENEW =>
    match resp with
    | none => (info.mac, info)
    | some mac => (mac, { info with mac := mac })

/-- KniDevice::getMtu with the SIOCGIFMTU oracle. -/
def getMtu (info : KniDeviceInfo) (state : KniInfoState) (resp : Option Nat) :
    Nat × KniDeviceInfo :=
  match state with
  | KniInfoState.INFO_CACHED => (info.mtu, info)
  | KniInfoState.INFO_RENEW =>
    match resp with
    | none => (info.mtu, info)
    | some mtu => (mtu, { info with mtu := mtu })

/-- KniDevice::getPromiscuous with the SIOCGIFFLAGS oracle. -/
def getPromiscuous (info : KniDeviceInfo) (state : KniInfoState) (resp : Option Nat) :
    KniPromiscuousMode × KniDeviceInfo :=
  match state with
  | KniInfoState.INFO_CACHED => (info.promisc, info)
  | KniInfoState.INFO_RENEW =>
    match resp with
    | none => (info.promisc, info)
    | some flags =>
        let p := if flags &&& IFF_PROMISC = 0 then KniPromiscuousMode.PROMISC_DISABLE
                 else KniPromiscuousMode.PROMISC_ENABLE
        (p, { info with promisc := p })

/-- Result of the read-modify-write setters on the FLAGS word: returned value,
cache afterwards, and whether a SIOCSIFFLAGS write was issued. -/
structure FlagSetResult where
  ok : Bool
  info : KniDeviceInfo
  wroteFlags : Bool
deriving DecidableEq

/-- KniDevice::setLinkState.  getResp is the SIOCGIFFLAGS oracle, setOk the
SIOCSIFFLAGS oracle.  The flags word is XOR-toggled and written back only when
the current IFF_UP bit differs from the requested state. -/
def setLinkState (info : KniDeviceInfo) (state : KniLinkState) (getResp : Option Nat)
    (setOk : Bool) : FlagSetResult :=
  if ¬(state = KniLinkState.LINK_DOWN ∨ state = KniLinkState.LINK_UP) then
    ⟨false, info, false⟩
  else
    match getResp with
    | none => ⟨false, info, false⟩
    | some flags =>
      if (state = KniLinkState.LINK_DOWN ∧ flags &&& IFF_UP ≠ 0)
          ∨ (state = KniLinkState.LINK_UP ∧ flags &&& IFF_UP = 0) then
        if setOk then ⟨true, { info with link := state }, true⟩
        else ⟨false, info, true⟩
      else ⟨true, { info with link := state }, false⟩

/-- KniDevice::setMacAddress with the SIOCSIFHWADDR oracle. -/
def setMacAddress (info : KniDeviceInfo) (mac : MacAddress) (setOk : Bool) :
    Bool × KniDeviceInfo :=
  if mac.valid = false then (false, info)
  else if setOk = false then (false, info)
  else (true, { info with mac := mac })

/-- KniDevice::setMtu with the SIOCSIFMTU oracle. -/
def setMtu (info : KniDeviceInfo) (mtu : Nat) (setOk : Bool) : Bool × KniDeviceInfo :=
  if setOk = false then (false, info)
  else (true, { info with mtu := mtu })

/-- KniDevice::setPromiscuous: same read-modify-write discipline as
setLinkState on the IFF_PROMISC bit. -/
def setPromiscuous (info : KniDeviceInfo) (mode : KniPromiscuousMode)
    (getResp : Option Nat) (setOk : Bool) : FlagSetResult :=
  if ¬(mode = KniPromiscuousMode.PROMISC_DISABLE
        ∨ mode = KniPromiscuousMode.PROMISC_ENABLE) then
    ⟨false, info, false⟩
  else
    match getResp with
    | none => ⟨false, info, false⟩
    | some flags =>
      if (mode = KniPromiscuousMode.PROMISC_DISABLE ∧ flags &&& IFF_PROMISC ≠ 0)
          ∨ (mode = KniPromiscuousMode.PROMISC_ENABLE ∧ flags &&& IFF_PROMISC = 0) then
        if setOk then ⟨true, { info with promisc := mode }, true⟩
        else ⟨false, info, true⟩
      else ⟨true, { info with promisc := mode }, false⟩

theorem setLinkState_ok_link (info : KniDeviceInfo) (s : KniLinkState)
    (gr : Option Nat) (so : Bool) (h : (setLinkState info s gr so).ok = true) :
    (setLinkState info s gr so).info.link = s := by
  by_cases hv : s = KniLinkState.LINK_DOWN ∨ s = KniLinkState.LINK_UP
  · cases gr with
    | none => simp [setLinkState, hv] at h
    | some flags =>
        by_cases hw : (s = KniLinkState.LINK_DOWN ∧ flags &&& IFF_UP ≠ 0)
            ∨ (s = KniLinkState.LINK_UP ∧ flags &&& IFF_UP = 0)
        · cases hso : so
          · simp [setLinkState, hv, hw, hso] at h
          · simp [setLinkState, hv, hw, hso]
        · simp [setLinkState, hv, hw]
  · simp [setLinkState, hv] at h

theorem setLinkState_fail_info (info : KniDeviceInfo) (s : KniLinkState)
    (gr : Option Nat) (so : Bool) (h : (setLinkState info s gr so).ok = false) :
    (setLinkState info s gr so).info = info := by
  by_cases hv : s = KniLinkState.LINK_DOWN ∨ s = KniLinkState.LINK_UP
  · cases gr with
    | none => simp [setLinkState, hv]
    | some flags =>
        by_cases hw : (s = KniLinkState.LINK_DOWN ∧ flags &&& IFF_UP ≠ 0)
            ∨ (s = KniLinkState.LINK_UP ∧ flags &&& IFF_UP = 0)
        · cases hso : so
          · simp [setLinkState, hv, hw, hso]
          · simp [setLinkState, hv, hw, hso] at h
        · simp [setLinkState, hv, hw] at h
  · simp [setLinkState, hv]

theorem setPromiscuous_ok_promisc (info : KniDeviceInfo) (p : KniPromiscuousMode)
    (gr : Option Nat) (so : Bool) (h : (setPromiscuous info p gr so).ok = true) :
    (setPromiscuous info p gr so).info.promisc = p := by
  by_cases hv : p = KniPromiscuousMode.PROMISC_DISABLE
      ∨ p = KniPromiscuousMode.PROMISC_ENABLE
  · cases gr with
    | none => simp [setPromiscuous, hv] at h
    | some flags =>
        by_cases hw : (p = KniPromiscuousMode.PROMISC_DISABLE ∧ flags &&& IFF_PROMISC ≠ 0)
            ∨ (p = KniPromiscuousMode.PROMISC_ENABLE ∧ flags &&& IFF_PROMISC = 0)
        · cases hso : so
          · simp [setPromiscuous, hv, hw, hso] at h
          · simp [setPromiscuous, hv, hw, hso]
        · simp [setPromiscuous, hv, hw]
  · simp [setPromiscuous, hv] at h

theorem setPromiscuous_fail_info (info : KniDeviceInfo) (p : KniPromiscuousMode)
    (gr : Option Nat) (so : Bool) (h : (setPromiscuous info p gr so).ok = false) :
    (setPromiscuous info p gr so).info = info := by
  by_cases hv : p = KniPromiscuousMode.PROMISC_DISABLE
      ∨ p = KniPromiscuousMode.PROMISC_ENABLE
  · cases gr with
    | none => simp [setPromiscuous, hv]
    | some flags =>
        by_cases hw : (p = KniPromiscuousMode.PROMISC_DISABLE ∧ flags &&& IFF_PROMISC ≠ 0)
            ∨ (p = KniPromiscuousMode.PROMISC_ENABLE ∧ flags &&& IFF_PROMISC = 0)
        · cases hso : so
          · simp [setPromiscuous, hv, hw, hso]
          · simp [setPromiscuous, hv, hw, hso] at h
        · simp [setPromiscuous, hv, hw] at h
  · simp [setPromiscuous, hv]

/-- Claim C3: the attribute cache always holds the last successfully read or
written value.  A QUERY-mode getter whose kernel read fails returns the cached
value and leaves the cache unchanged; a successful setter makes the CACHED
getter return the written value; a failed setter returns false and leaves the
cache unchanged. -/
theorem kni_cache_consistency (info : KniDeviceInfo) :
    getLinkState info KniInfoState.INFO_RENEW none = (info.link, info)
    ∧ getMacAddress info KniInfoState.INFO_RENEW none = (info.mac, info)
    ∧ getMtu info KniInfoState.INFO_RENEW none = (info.mtu, info)
    ∧ getPromiscuous info KniInfoState.INFO_RENEW none = (info.promisc, info)
    ∧ (∀ s gr so, (setLinkState info s gr so).ok = true →
        (getLinkState (setLinkState info s gr so).info KniInfoState.INFO_CACHED none).1 = s)
    ∧ (∀ s gr so, (setLinkState info s gr so).ok = false →
        (setLinkState info s gr so).info = info)
    ∧ (∀ m so, (setMacAddress info m so).1 = true →
        (getMacAddress (setMacAddress info m so).2 KniInfoState.INFO_CACHED none).1 = m)
    ∧ (∀ m so, (setMacAddress info m so).1 = false → (setMacAddress info m so).2 = info)
    ∧ (∀ v so, (setMtu info v so).1 = true →
        (getMtu (setMtu info v so).2 KniInfoState.INFO_CACHED none).1 = v)
    ∧ (∀ v so, (setMtu info v so).1 = false → (setMtu info v so).2 = info)
    ∧ (∀ p gr so, (setPromiscuous info p gr so).ok = true →
        (getPromiscuous (setPromiscuous info p gr so).info
          KniInfoState.INFO_CACHED none).1 = p)
    ∧ (∀ p gr so, (setPromiscuous info p gr so).ok = false →
        (setPromiscuous info p gr so).info = info) := by
  refine ⟨rfl, rfl, rfl, rfl, ?_, ?_, ?_, ?_, ?_, ?_, ?_, ?_⟩
  · exact fun s gr so h => setLinkState_ok_link info s gr so h
  · exact fun s gr so h => setLinkState_fail_info info s gr so h
  · intro m so h
    cases hv : m.valid <;> cases hs : so <;> simp_all [setMacAddress, getMacAddress]
  · intro m so h
    cases hv : m.valid <;> cases hs : so <;> simp_all [setMacAddress]
  · intro v so h
    cases hs : so <;> simp_all [setMtu, getMtu]
  · intro v so h
    cases hs : so <;> simp_all [setMtu]
  · exact fun p gr so h => setPromiscuous_ok_promisc info p gr so h
  · exact fun p gr so h => setPromiscuous_fail_info info p gr so h

/-- A concrete cache state for the witnesses. -/
def info0 : KniDeviceInfo := KniDeviceInfo.init 3 1500 ⟨1, true⟩

/-- Claim C3, witness: concrete instances of the cache laws. -/
theorem kni_cache_consistency_witness :
    getMtu info0 KniInfoState.INFO_RENEW none = (info0.mtu, info0)
    ∧ (getLinkState (setLinkState info0 KniLinkState.LINK_UP (some 0) true).info
        KniInfoState.INFO_CACHED none).1 = KniLinkState.LINK_UP
    ∧ (setMtu info0 9000 false).2 = info0 := by
  obtain ⟨g1, g2, g3, g4, s1, s2, s3, s4, s5, s6, s7, s8⟩ := kni_cache_consistency info0
  exact ⟨g3, s1 KniLinkState.LINK_UP (some 0) true (by decide), s6 9000 false (by decide)⟩

/-- Claim C10: when the initial SIOCGIFFLAGS read succeeds and the flags word
already matches the requested link or promiscuous state, no SIOCSIFFLAGS write
is issued, the setter still returns true, and the cache is still overwritten
with the requested value. -/
theorem kni_set_flags_skips_redundant_write (info : KniDeviceInfo) (flags : Nat)
    (setOk : Bool) :
    (flags &&& IFF_UP ≠ 0 →
      setLinkState info KniLinkState.LINK_UP (some flags) setOk
        = ⟨true, { info with link := KniLinkState.LINK_UP }, false⟩)
    ∧ (flags &&& IFF_UP = 0 →
      setLinkState info KniLinkState.LINK_DOWN (some flags) setOk
        = ⟨true, { info with link := KniLinkState.LINK_DOWN }, false⟩)
    ∧ (flags &&& IFF_PROMISC ≠ 0 →
      setPromiscuous info KniPromiscuousMode.PROMISC_ENABLE (some flags) setOk
        = ⟨true, { info with promisc := KniPromiscuousMode.PROMISC_ENABLE }, false⟩)
    ∧ (flags &&& IFF_PROMISC = 0 →
      setPromiscuous info KniPromiscuousMode.PROMISC_DISABLE (some flags) setOk
        = ⟨true, { info with promisc := KniPromiscuousMode.PROMISC_DISABLE }, false⟩) := by
  refine ⟨fun h => ?_, fun h => ?_, fun h => ?_, fun h => ?_⟩ <;>
    simp [setLinkState, setPromiscuous, h]

/-- Claim C10, witness: flags word 1 (IFF_UP set, IFF_PROMISC clear) with a
matching requested state on both setters. -/
theorem kni_set_flags_skips_redundant_write_witness :
    setLinkState info0 KniLinkState.LINK_UP (some 1) true
      = ⟨true, { info0 with link := KniLinkState.LINK_UP }, false⟩
    ∧ setPromiscuous info0 KniPromiscuousMode.PROMISC_DISABLE (some 1) false
      = ⟨true, { info0 with promisc := KniPromiscuousMode.PROMISC_DISABLE }, false⟩ :=
  ⟨(kni_set_flags_skips_redundant_write info0 1 true).1 (by decide),
   (kni_set_flags_skips_redundant_write info0 1 false).2.2.2 (by decide)⟩

/-
  ===================================
  Engine link update, open, and workers
  ===================================
-/

/-- The file-local helper setKniDeviceLinkState(kni, name, state).  handle
models kni != NULL; engineResp is the oracle for rte_kni_update_link, the
previous state it reports (LINK_ERROR on engine failure, LINK_NOT_SUPPORTED
models an engine version without the link-update primitive). -/
def setKniDeviceLinkState (handle : Bool) (state : KniLinkState)
    (engineResp : KniLinkState) : KniLinkState :=
  if handle = false ∨ ¬(state = KniLinkState.LINK_UP ∨ state = KniLinkState.LINK_DOWN) then
    KniLinkState.LINK_ERROR
  else engineResp

/-- KniDevice::updateLinkState: informs the engine and refreshes the cached
link only when the engine reported neither NOT_SUPPORTED nor ERROR.  Returns
the old state reported by the engine together with the updated device. -/
def updateLinkState (dev : KniDeviceState) (state : KniLinkState)
    (engineResp : KniLinkState) : KniLinkState × KniDeviceState :=
  let oldState := setKniDeviceLinkState dev.device state engineResp
  if oldState ≠ KniLinkState.LINK_NOT_SUPPORTED ∧ oldState ≠ KniLinkState.LINK_ERROR then
    (oldState, { dev with info := { dev.info with link := state } })
  else (oldState, dev)

/-- KniDevice::open: on an already-opened device log and return false;
otherwise call updateLinkState(LINK_UP), discard its return value, and switch
on the cached m_DeviceInfo.link. -/
def openDevice (dev : KniDeviceState) (engineResp : KniLinkState) :
    Bool × KniDeviceState :=
  if dev.deviceOpened then (false, dev)
  else
    let dev1 := (updateLinkState dev KniLinkState.LINK_UP engineResp).2
    match dev1.info.link with
    | KniLinkState.LINK_ERROR => (false, { dev1 with deviceOpened := false })
    | _ => (true, { dev1 with deviceOpened := true })

/-- KniDevice::startCapture.  spawnOk is the pthread_create oracle.  On spawn
failure (KniThread state INVALID) the code deletes the KniThread object but
leaves m_Capturing.thread pointing at it: the pointer stays non-null and
dangling, and the callback installed before the spawn stays installed. -/
def startCapture (dev : KniDeviceState) (hasCb : Bool) (spawnOk : Bool) :
    Bool × KniDeviceState :=
  if dev.deviceOpened = false then (false, dev)
  else if dev.capturingThread.isSome then (false, dev)
  else
    let dev1 := { dev with capturingHasCallback := hasCb }
    if spawnOk = false then
      (false, { dev1 with capturingThread := some KniThreadCleanupState.INVALID
                        , capturingDangling := true })
    else
      (true, { dev1 with capturingThread := some KniThreadCleanupState.JOINABLE
                       , capturingDangling := false })

/-- KniDevice::startRequestHandlerThread.  On spawn failure it calls
m_Requests.cleanup(), which deletes the thread, nulls the pointer and zeroes
the sleep intervals. -/
def startRequestHandlerThread (dev : KniDeviceState) (sleepSeconds sleepNanoSeconds : Nat)
    (spawnOk : Bool) : Bool × KniDeviceState :=
  if dev.requestsThread.isSome then (false, dev)
  else
    let dev1 := { dev with reqSleepS := sleepSeconds, reqSleepNs := sleepNanoSeconds }
    if spawnOk = false then
      (false, { dev1 with requestsThread := none, reqSleepS := 0, reqSleepNs := 0 })
    else (true, { dev1 with requestsThread := some KniThreadCleanupState.DETACHED })

/-- A freshly constructed device whose rte_kni_alloc failed: handle null. -/
def nullDev : KniDeviceState := mkKniDevice 7 1500 ⟨2, true⟩ true false

/-- A freshly constructed device with a valid handle, not yet opened. -/
def freshDev : KniDeviceState := mkKniDevice 0 1500 ⟨1, true⟩ true true

/-- Claim C4: open() is specified to fail when updateLinkState returned ERROR,
but the code discards that return value and switches on the cached link, which
a fresh device holds as LINK_NOT_SUPPORTED and which no path ever sets to
LINK_ERROR; so when the engine link update fails (rte_kni_update_link reports
LINK_ERROR) open() still returns true and marks the device opened.  The
idempotence half of the claim does hold: a second open() returns false and
changes nothing. -/
theorem kni_open_ignores_link_update_error :
    (updateLinkState freshDev KniLinkState.LINK_UP KniLinkState.LINK_ERROR).1
      = KniLinkState.LINK_ERROR
    ∧ (openDevice freshDev KniLinkState.LINK_ERROR).1 = true
    ∧ (openDevice freshDev KniLinkState.LINK_ERROR).2.deviceOpened = true
    ∧ (openDevice devReady KniLinkState.LINK_UP).1 = false
    ∧ (openDevice devReady KniLinkState.LINK_UP).2 = devReady := by
  decide

/-- Claim C5: after a construction failure the handle is null and operations
guarded by m_DeviceOpened are no-ops returning zero or false, but open() on the
null-handle device returns true (updateLinkState returns LINK_ERROR for a null
handle, open() consults the cached link instead and proceeds), contradicting
the claim that open() returns false in the null-handle state. -/
theorem kni_null_handle_open_returns_true :
    nullDev.device = false
    ∧ (openDevice nullDev KniLinkState.LINK_UP).1 = true
    ∧ (receivePacketsVec nullDev [5] (fun _ => 0) 0).count = 0
    ∧ (receivePacketsArr nullDev 4 false [5] (fun _ => 0) 0).count = 0
    ∧ (sendPacketsMBufArr nullDev.deviceOpened [true] 1).1 = 0
    ∧ (sendPacketsRawVec nullDev.deviceOpened [⟨true, true⟩] (fun _ => true) 1).1 = 0
    ∧ (startCapture nullDev true true).1 = false := by
  decide

/-- Claim C9: when pthread_create fails, startRequestHandlerThread rolls its
worker state back (thread pointer null, sleep intervals zeroed) and a retry is
accepted, but startCapture deletes the failed KniThread without nulling
m_Capturing.thread, so the capture state still holds a (dangling) worker and a
subsequent startCapture is rejected as already-capturing, contradicting the
claimed rollback. -/
theorem kni_capture_spawn_failure_not_rolled_back :
    (startCapture devReady true false).1 = false
    ∧ (startCapture devReady true false).2.capturingThread ≠ none
    ∧ (startCapture devReady true false).2.capturingDangling = true
    ∧ (startCapture (startCapture devReady true false).2 true true).1 = false
    ∧ (startRequestHandlerThread devReady 1 0 false).1 = false
    ∧ (startRequestHandlerThread devReady 1 0 false).2.requestsThread = none
    ∧ (startRequestHandlerThread (startRequestHandlerThread devReady 1 0 false).2 1 0 true).1
        = true := by
  decide

/-
  =====================
  Blocking capture mode
  =====================
-/

/-- The timeout <= 0 loop of startCaptureBlockingMode: an unconditional for(;;)
whose only exit is the callback returning false on a non-empty burst (some 1).
env j gives, for loop iteration j, the burst size and the callback verdict
(true = keep going).  Fuel bounds how many iterations are modelled; none means
the loop was still running when the fuel ran out. -/
def blockingLoopForever (env : Nat → Nat × Bool) : Nat → Nat → Option Int
  | 0, _ => none
  | f + 1, j =>
      if (env j).1 ≠ 0 ∧ (env j).2 = false then some 1
      else blockingLoopForever env f (j + 1)

/-- The timeout > 0 loop of startCaptureBlockingMode: while the current-time
variable (initially the literal 0, then the clockGetTime sample of the previous
iteration) is at most the deadline, sample the clock, burst, dispatch, and
return 1 on a callback stop; when the while condition fails, return -1.
clock is indexed by the clockGetTime sample counter: sample 0 is startTimeSec,
iteration j samples clock (j + 1). -/
def blockingLoopTimed (clock : Nat → Int) (env : Nat → Nat × Bool) (deadline : Int) :
    Nat → Int → Nat → Option Int
  | 0, _, _ => none
  | f + 1, curTime, j =>
      if curTime ≤ deadline then
        if (env j).1 ≠ 0 ∧ (env j).2 = false then some 1
        else blockingLoopTimed clock env deadline f (clock (j + 1)) (j + 1)
      else some (-1)

/-- KniDevice::startCaptureBlockingMode: precondition checks (device opened,
no capture worker, non-null callback) yield 0; then timeout <= 0 selects the
unconditional loop, timeout > 0 the deadline loop with deadline
startTimeSec + timeout where startTimeSec = clock 0. -/
def startCaptureBlockingMode (dev : KniDeviceState) (hasCb : Bool) (timeout : Int)
    (clock : Nat → Int) (env : Nat → Nat × Bool) (fuel : Nat) : Option Int :=
  if dev.deviceOpened = false then some 0
  else if dev.capturingThread.isSome then some 0
  else if hasCb = false then some 0
  else if timeout ≤ 0 then blockingLoopForever env fuel 0
  else blockingLoopTimed clock env (clock 0 + timeout) fuel 0 0

theorem blockingLoopForever_eq_some (env : Nat → Nat × Bool) :
    ∀ (f j : Nat) (r : Int), blockingLoopForever env f j = some r →
      r = 1 ∧ ∃ k, (env k).1 ≠ 0 ∧ (env k).2 = false := by
  intro f
  induction f with
  | zero => intro j r h; simp [blockingLoopForever] at h
  | succ n ih =>
      intro j r h
      rw [blockingLoopForever] at h
      split at h
      · rename_i hc
        injection h with h1
        exact ⟨h1.symm, j, hc⟩
      · exact ih (j + 1) r h

theorem blockingLoopTimed_eq_some (clock : Nat → Int) (env : Nat → Nat × Bool)
    (deadline : Int) :
    ∀ (f : Nat) (curTime : Int) (j : Nat) (r : Int),
      blockingLoopTimed clock env deadline f curTime j = some r →
        (r = 1 ∧ ∃ k, (env k).1 ≠ 0 ∧ (env k).2 = false)
        ∨ (r = -1 ∧ (deadline < curTime ∨ ∃ k, deadline < clock k)) := by
  intro f
  induction f with
  | zero => intro curTime j r h; simp [blockingLoopTimed] at h
  | succ n ih =>
      intro curTime j r h
      rw [blockingLoopTimed] at h
      split at h
      · split at h
        · rename_i hle hc
          injection h with h1
          exact Or.inl ⟨h1.symm, j, hc⟩
        · rcases ih (clock (j + 1)) (j + 1) r h with h1 | ⟨hr, hcase⟩
          · exact Or.inl h1
          · refine Or.inr ⟨hr, Or.inr ?_⟩
            rcases hcase with hlt | ⟨k, hk⟩
            · exact ⟨j + 1, hlt⟩
            · exact ⟨k, hk⟩
      · rename_i hgt
        injection h with h1
        exact Or.inr ⟨h1.symm, Or.inl (not_le.mp hgt)⟩

/-- Claim C8: the precondition failures of startCaptureBlockingMode (device
not opened, capture worker present, null callback) return 0; with timeout <= 0
the loop can only exit by the callback returning false on a non-empty burst,
yielding 1; with timeout > 0 every exit is 1 (callback stop) or -1, and -1 is
returned only after a clock sample exceeded start + timeout. -/
theorem kni_blocking_mode_outcomes (dev : KniDeviceState) (hasCb : Bool)
    (timeout : Int) (clock : Nat → Int) (env : Nat → Nat × Bool) (fuel : Nat) :
    (dev.deviceOpened = false →
      startCaptureBlockingMode dev hasCb timeout clock env fuel = some 0)
    ∧ (dev.capturingThread.isSome = true →
      startCaptureBlockingMode dev hasCb timeout clock env fuel = some 0)
    ∧ (hasCb = false →
      startCaptureBlockingMode dev hasCb timeout clock env fuel = some 0)
    ∧ (dev.deviceOpened = true → dev.capturingThread.isSome = false → hasCb = true →
        timeout ≤ 0 →
        ∀ r : Int, startCaptureBlockingMode dev hasCb timeout clock env fuel = some r →
          r = 1 ∧ ∃ k, (env k).1 ≠ 0 ∧ (env k).2 = false)
    ∧ (dev.deviceOpened = true → dev.capturingThread.isSome = false → hasCb = true →
        0 < timeout → 0 ≤ clock 0 →
        ∀ r : Int, startCaptureBlockingMode dev hasCb timeout clock env fuel = some r →
          (r = 1 ∧ ∃ k, (env k).1 ≠ 0 ∧ (env k).2 = false)
          ∨ (r = -1 ∧ ∃ k, clock 0 + timeout < clock k)) := by
  refine ⟨?_, ?_, ?_, ?_, ?_⟩
  · intro h; simp [startCaptureBlockingMode, h]
  · intro h
    cases hop : dev.deviceOpened <;> simp [startCaptureBlockingMode, hop, h]
  · intro h
    cases hop : dev.deviceOpened <;> cases hcap : dev.capturingThread.isSome <;>
      simp [startCaptureBlockingMode, hop, hcap, h]
  · intro hop hcap hcb hto r h
    rw [startCaptureBlockingMode] at h
    simp only [hop, hcap, hcb] at h
    rw [if_neg (by simp), if_neg (by simp), if_neg (by simp), if_pos hto] at h
    exact blockingLoopForever_eq_some env fuel 0 r h
  · intro hop hcap hcb hto hclk r h
    rw [startCaptureBlockingMode] at h
    rw [if_neg (by simp [hop]), if_neg (by simp [hcap]), if_neg (by simp [hcb]),
      if_neg (not_le.mpr hto)] at h
    rcases blockingLoopTimed_eq_some clock env (clock 0 + timeout) fuel 0 0 r h with
      h1 | ⟨hr, hcase⟩
    · exact Or.inl h1
    · refine Or.inr ⟨hr, ?_⟩
      rcases hcase with hlt | hex
      · exact absurd hlt (by omega)
      · exact hex

/-- A clock advancing one second per sample. -/
def clockLin : Nat → Int := fun n => (n : Int)

/-- An environment that never receives a packet. -/
def envQuiet : Nat → Nat × Bool := fun _ => (0, true)

/-- Claim C8, witness: an opened idle device with a 2-second timeout, a quiet
ring and a one-second clock runs the timed loop to its deadline; applying the
outcome theorem to the computed result some (-1) discharges every hypothesis. -/
theorem kni_blocking_mode_outcomes_witness :
    ((-1 : Int) = 1 ∧ ∃ k, (envQuiet k).1 ≠ 0 ∧ (envQuiet k).2 = false)
    ∨ ((-1 : Int) = -1 ∧ ∃ k, clockLin 0 + 2 < clockLin k) :=
  (kni_blocking_mode_outcomes devReady true 2 clockLin envQuiet 10).2.2.2.2
    rfl rfl rfl (by decide) (by decide) (-1) (by decide)

end pcpp
